import Mathlib

/-!
# Verification of the eBird incremental-sync connector

Shallow embedding of `src/app/actions/handlers.py` (and the configuration
model in `src/app/actions/configurations.py`) of the gundi-integration-ebird
repository, together with theorems settling the frozen claims about it.

Modelling conventions:

* Python `datetime` values that only ever take part in comparisons and
  arithmetic are modelled as `Int` (UTC epoch seconds).  Where the
  timezone-awareness of a datetime itself matters (the pydantic validators),
  a `PyDatetime` structure with an optional UTC-offset field is used.
* `datetime.fromisoformat` / pydantic string parsing is external string
  machinery; a stored state blob is modelled as `StateBlob`: either it
  parses to a timestamp (`valid t`) or parsing raises `ValidationError`
  (`malformed`).
* The eBird HTTP API and the Gundi sink are external collaborators; they
  enter the model as function parameters (`api`, `fetch`) and as the
  `SendOutcome` of `send_events_to_gundi` (which either returns a response
  or raises `httpx.HTTPError`).
* `math.ceil(x / 86400)` on an integer number of seconds is
  `-((-x).ediv 86400)` (ceiling division).
-/

namespace EBird

/-- `SECONDS_IN_DAY = 86400` from `handlers.py` line 20. -/
def SECONDS_IN_DAY : Int := 86400

/-- `math.ceil(delta_seconds / SECONDS_IN_DAY)` for an integer number of
seconds, as used in `action_pull_events` (handlers.py line 171). -/
def ceilDaysOfSeconds (delta : Int) : Int := -((-delta).ediv SECONDS_IN_DAY)

/-- A persisted state blob as seen through pydantic parsing
(`LatestObservationDatetimeState.parse_obj` / `LatestExecutionDatetimeState.parse_obj`):
either it parses to a timezone-aware timestamp (modelled as UTC epoch
seconds) or parsing raises `ValidationError`. -/
inductive StateBlob where
  | valid (t : Int)
  | malformed
deriving DecidableEq, Repr

/-- A transformed Gundi event as produced by `_transform_ebird_to_gundi_event`:
only `recorded_at` is inspected by the sync logic; every other field of the
event dict is bundled into an opaque `payload`. -/
structure Event where
  recorded_at : Int
  payload : String
deriving DecidableEq, Repr

/-- The lookback computation of `action_pull_events` (handlers.py lines
151-176): if a `latest_execution_time` state is present and parses, the
lookback is `max(1, ceil((now - latest_execution_time)/86400))`; if the
state is absent, or present but failing to parse (`ValidationError`), the
configured `num_days` is used. -/
def computeLookbackDays (now : Int) (savedExec : Option StateBlob) (num_days : Int) : Int :=
  match savedExec with
  | none => num_days
  | some StateBlob.malformed => num_days
  | some (StateBlob.valid t) => max 1 (ceilDaysOfSeconds (now - t))

/-- `filter_ebird_events` (handlers.py lines 119-139): with a stored
`latest_observation_datetime` that parses to `w`, keep exactly the events
with `recorded_at > w` (a Python list comprehension, hence order-preserving);
with no stored state, or a stored state that raises `ValidationError` on
parsing, return the input list unchanged. -/
def filter_ebird_events (savedObs : Option StateBlob) (events : List Event) : List Event :=
  match savedObs with
  | none => events
  | some StateBlob.malformed => events
  | some (StateBlob.valid w) => events.filter (fun e => decide (w < e.recorded_at))

/-- The message built in `handle_transformed_data` (handlers.py line 77)
when `send_events_to_gundi` raises `httpx.HTTPError`. -/
def sensorsErrorMsg (integrationId excMsg : String) : String :=
  "Sensors API returned error for integration_id: " ++ integrationId
    ++ ". Exception: " ++ excMsg

/-- Outcome of the external `send_events_to_gundi` call: either it returns a
response (whose Python membership test `"error" in response` is recorded as a
boolean, the response itself being opaque to this repository) or it raises
`httpx.HTTPError` with some exception text. -/
inductive SendOutcome where
  | ok (respContainsError : Bool)
  | httpError (excMsg : String)
deriving DecidableEq, Repr

/-- The value `handle_transformed_data` evaluates to: on `httpx.HTTPError`
it returns the Python list `[msg]` (handlers.py line 86); otherwise it
returns the external response of `send_events_to_gundi`. -/
inductive GundiResponse where
  | msgs (xs : List String)
  | external (containsError : Bool)
deriving DecidableEq, Repr

/-- `handle_transformed_data` (handlers.py lines 70-88). -/
def handle_transformed_data (outcome : SendOutcome) (integrationId : String) : GundiResponse :=
  match outcome with
  | SendOutcome.httpError e => GundiResponse.msgs [sensorsErrorMsg integrationId e]
  | SendOutcome.ok b => GundiResponse.external b

/-- The Python expression `"error" in response` (handlers.py line 221).
When `response` is the list returned by the error path of
`handle_transformed_data`, `in` is list membership. -/
def pyInError (r : GundiResponse) : Bool :=
  match r with
  | GundiResponse.msgs xs => xs.contains "error"
  | GundiResponse.external b => b

/-- `max(filtered_events, key=lambda obs: obs["recorded_at"])["recorded_at"]`
(handlers.py line 225) on the non-empty list `f :: fs`: Python `max` keeps
the first element among ties and replaces the running maximum only on a
strictly greater key. -/
def pyMaxRecordedAt (f : Event) (fs : List Event) : Int :=
  (fs.foldl (fun acc x => if acc.recorded_at < x.recorded_at then x else acc) f).recorded_at

/-- `SearchParameter` enum from `configurations.py`. -/
inductive SearchParameter where
  | REGION
  | LAT_LON_DISTANCE
deriving DecidableEq, Repr

/-- The fields of `PullEventsConfig` (configurations.py) that the sync logic
reads.  Optional numeric fields default to `None` in pydantic, hence
`Option`; `latitude`/`longitude`/`distance` are floats, modelled as `Rat`. -/
structure PullEventsConfig where
  search_parameter : SearchParameter
  latitude : Option Rat
  longitude : Option Rat
  distance : Option Rat
  num_days : Int
  region_code : Option String
  species_code : Option String
deriving DecidableEq, Repr

/-- Python truthiness of an `Optional[str]`: `None` and `""` are falsy. -/
def pyTruthyOptStr : Option String → Bool
  | none => false
  | some s => !(s == "")

/-- Python truthiness of an `Optional[float]`: `None` and `0.0` are falsy. -/
def pyTruthyOptRat : Option Rat → Bool
  | none => false
  | some q => !decide (q = 0)

/-- The `ConfigurationValidationError` raised by `action_pull_events`
(handlers.py lines 182 and 193); the carried message is the source text with
its inner quotes dropped. -/
inductive RunError where
  | configurationValidationError (msg : String)
deriving DecidableEq, Repr

/-- The configuration check of `action_pull_events` (handlers.py lines
180-204): region mode requires a truthy `region_code`; otherwise (the only
other mode is lat-lon-distance) truthy `latitude`, `longitude` and
`distance` are all required.  The checks use Python truthiness. -/
def validateQuerySpec (cfg : PullEventsConfig) : Option RunError :=
  match cfg.search_parameter with
  | SearchParameter.REGION =>
      if !pyTruthyOptStr cfg.region_code then
        some (RunError.configurationValidationError
          "Region code is required for region search parameter.")
      else none
  | SearchParameter.LAT_LON_DISTANCE =>
      if !pyTruthyOptRat cfg.latitude || !pyTruthyOptRat cfg.longitude
          || !pyTruthyOptRat cfg.distance then
        some (RunError.configurationValidationError
          "Latitude, longitude, and distance are required for location search parameter.")
      else none

/-- Lines 206-237 of `action_pull_events`: given the transformed events, run
the filter, submit a non-empty filtered batch, check the response for
errors, and on the success branch record the watermark write.  Returns the
`events_extracted` count and the list of `latest_observation_datetime`
writes performed. -/
def processBatch (integrationId : String) (savedObs : Option StateBlob)
    (transformed : List Event) (outcome : SendOutcome) : Nat × List Int :=
  if transformed.isEmpty then (0, [])
  else
    match filter_ebird_events savedObs transformed with
    | [] => (0, [])
    | f :: fs =>
      if pyInError (handle_transformed_data outcome integrationId) then
        (0, [])
      else
        ((f :: fs).length, [pyMaxRecordedAt f fs])

/-- Result of one run of `action_pull_events`: the returned
`events_extracted` (or the raised configuration error), the lookback value
handed to the source client, and the sequences of state writes performed to
the `latest_observation_datetime` and `latest_execution_time` keys. -/
structure RunTrace where
  result : Sum RunError Nat
  lookbackUsed : Int
  obsWrites : List Int
  execWrites : List Int
deriving DecidableEq, Repr

/-- `action_pull_events` (handlers.py lines 143-247).  External inputs are
explicit: `savedExec` and `savedObs` are the two state reads, `nowAtLookback`
is `datetime.now` at line 169, `nowAtEnd` is `datetime.now` at line 240,
`fetch` maps the lookback days to the fetched-and-transformed event list,
and `outcome` is the behaviour of `send_events_to_gundi`.  A raised
`ConfigurationValidationError` aborts the run before any fetch or state
write; otherwise the run always ends by writing `latest_execution_time`. -/
def action_pull_events (integrationId : String) (cfg : PullEventsConfig)
    (savedExec savedObs : Option StateBlob)
    (nowAtLookback nowAtEnd : Int)
    (fetch : Int → List Event)
    (outcome : SendOutcome) : RunTrace :=
  let lookback := computeLookbackDays nowAtLookback savedExec cfg.num_days
  match validateQuerySpec cfg with
  | some e =>
      { result := Sum.inl e, lookbackUsed := lookback, obsWrites := [], execWrites := [] }
  | none =>
      let step := processBatch integrationId savedObs (fetch lookback) outcome
      { result := Sum.inr step.1, lookbackUsed := lookback,
        obsWrites := step.2, execWrites := [nowAtEnd] }

/-- A Python `datetime`: a wall-clock value (seconds) plus an optional
timezone (UTC offset in seconds); `tzinfo = none` is a naive datetime. -/
structure PyDatetime where
  naive : Int
  tzinfo : Option Int
deriving DecidableEq, Repr

/-- `eBirdObservation.clean_obsDt` (handlers.py lines 60-68), applied to the
already-parsed `datetime.fromisoformat` result: a naive datetime gets
`tzinfo=timezone.utc`; an aware one is kept (the round-trip through
`isoformat` and pydantic re-parsing preserves the value). -/
def clean_obsDt (parsed : PyDatetime) : PyDatetime :=
  if parsed.tzinfo = none then { parsed with tzinfo := some 0 } else parsed

/-- `LatestObservationDatetimeState.clean_latest_observation_datetime`
(handlers.py lines 26-31), applied to the parsed datetime. -/
def clean_latest_observation_datetime (parsed : PyDatetime) : PyDatetime :=
  if parsed.tzinfo = none then { parsed with tzinfo := some 0 } else parsed

/-- `LatestExecutionDatetimeState.clean_latest_execution_time`
(handlers.py lines 37-42), applied to the parsed datetime. -/
def clean_latest_execution_time (parsed : PyDatetime) : PyDatetime :=
  if parsed.tzinfo = none then { parsed with tzinfo := some 0 } else parsed

/-- Helper for `pySplitComma`: walk the characters, cutting at commas; the
accumulator holds the current chunk reversed. -/
def splitCommaAux : List Char → List Char → List String
  | [], acc => [String.mk acc.reverse]
  | c :: rest, acc =>
      if c = ',' then String.mk acc.reverse :: splitCommaAux rest []
      else splitCommaAux rest (c :: acc)

/-- Python `s.split(",")` (handlers.py line 295): split on every comma,
keeping empty chunks; the split of a non-empty separator-free string is the
one-element list of itself. -/
def pySplitComma (s : String) : List String := splitCommaAux s.data []

/-- The species loop of `_get_recent_observations` (handlers.py lines
294-304): one GET per species code, in list order, yielding each code's
observations in order (an empty per-code result yields nothing, which is
exactly concatenation with an empty list).  Returns the requested URLs in
order together with the concatenated observations. -/
def getRecentObservationsSpecies (base_url : String) (api : String → List Event) :
    List String → List String × List Event
  | [] => ([], [])
  | specie :: rest =>
      let url := base_url ++ "/" ++ specie
      let obs := api url
      let tail := getRecentObservationsSpecies base_url api rest
      (url :: tail.1, obs ++ tail.2)

/-- `_get_recent_observations` (handlers.py lines 292-309): with a truthy
`species_code` the code is split on commas and one query unit is issued per
code; otherwise a single query unit against the base URL covers all
species. -/
def getRecentObservations (base_url : String) (api : String → List Event)
    (species_code : Option String) : List String × List Event :=
  if pyTruthyOptStr species_code then
    getRecentObservationsSpecies base_url api (pySplitComma (species_code.getD ""))
  else
    ([base_url], api base_url)

/-- A pull-events configuration in point (lat-lon-distance) mode with all
three coordinates populated and truthy. -/
def cfgPoint : PullEventsConfig :=
  { search_parameter := SearchParameter.LAT_LON_DISTANCE,
    latitude := some 10, longitude := some 20, distance := some 5,
    num_days := 2, region_code := none, species_code := none }

/-- A pull-events configuration in region mode with a region code set. -/
def cfgRegion : PullEventsConfig :=
  { search_parameter := SearchParameter.REGION,
    latitude := none, longitude := none, distance := none,
    num_days := 2, region_code := some "US", species_code := none }

/-- A pull-events configuration in region mode with no region code. -/
def cfgRegionMissing : PullEventsConfig :=
  { search_parameter := SearchParameter.REGION,
    latitude := none, longitude := none, distance := none,
    num_days := 2, region_code := none, species_code := none }

/-- A pull-events configuration in point mode whose latitude is the valid
coordinate `0.0` (the equator), with longitude and distance populated. -/
def cfgZeroLat : PullEventsConfig :=
  { search_parameter := SearchParameter.LAT_LON_DISTANCE,
    latitude := some 0, longitude := some 20, distance := some 5,
    num_days := 2, region_code := none, species_code := none }

/-- A concrete transformed event used in closed-statement checks. -/
def ev100 : Event := { recorded_at := 100, payload := "obs1" }

/-- The running-maximum fold underlying `pyMaxRecordedAt` produces one of
the inspected events. -/
lemma pyMaxFold_mem (fs : List Event) : ∀ f : Event,
    fs.foldl (fun acc x => if acc.recorded_at < x.recorded_at then x else acc) f ∈ f :: fs := by
  induction fs with
  | nil => intro f; simp
  | cons x xs ih =>
    intro f
    simp only [List.foldl_cons]
    rcases List.mem_cons.mp (ih (if f.recorded_at < x.recorded_at then x else f)) with h | h
    · rw [h]
      by_cases hc : f.recorded_at < x.recorded_at
      · rw [if_pos hc]; exact List.mem_cons_of_mem _ (List.mem_cons_self _ _)
      · rw [if_neg hc]; exact List.mem_cons_self _ _
    · exact List.mem_cons_of_mem _ (List.mem_cons_of_mem _ h)

/-- The running-maximum fold underlying `pyMaxRecordedAt` dominates every
inspected event's `recorded_at`. -/
lemma pyMaxFold_ge (fs : List Event) : ∀ f e : Event, e ∈ f :: fs →
    e.recorded_at ≤
      (fs.foldl (fun acc x => if acc.recorded_at < x.recorded_at then x else acc) f).recorded_at := by
  induction fs with
  | nil =>
    intro f e he
    simp only [List.mem_singleton] at he
    simp [he]
  | cons x xs ih =>
    intro f e he
    simp only [List.foldl_cons]
    have hfa : f.recorded_at ≤ (if f.recorded_at < x.recorded_at then x else f).recorded_at := by
      by_cases hc : f.recorded_at < x.recorded_at
      · rw [if_pos hc]; exact le_of_lt hc
      · rw [if_neg hc]
    have hxa : x.recorded_at ≤ (if f.recorded_at < x.recorded_at then x else f).recorded_at := by
      by_cases hc : f.recorded_at < x.recorded_at
      · rw [if_pos hc]
      · rw [if_neg hc]; exact le_of_not_lt hc
    have haa := ih (if f.recorded_at < x.recorded_at then x else f)
      (if f.recorded_at < x.recorded_at then x else f) (List.mem_cons_self _ _)
    rcases List.mem_cons.mp he with rfl | he2
    · exact le_trans hfa haa
    · rcases List.mem_cons.mp he2 with rfl | he3
      · exact le_trans hxa haa
      · exact ih _ e (List.mem_cons_of_mem _ he3)

/-- `pyMaxRecordedAt f fs` is the `recorded_at` of some event of the batch. -/
lemma pyMaxRecordedAt_mem (f : Event) (fs : List Event) :
    pyMaxRecordedAt f fs ∈ (f :: fs).map Event.recorded_at :=
  List.mem_map_of_mem Event.recorded_at (pyMaxFold_mem fs f)

/-- `pyMaxRecordedAt f fs` dominates every `recorded_at` of the batch. -/
lemma pyMaxRecordedAt_ge (f : Event) (fs : List Event) :
    ∀ e : Event, e ∈ f :: fs → e.recorded_at ≤ pyMaxRecordedAt f fs :=
  fun e he => pyMaxFold_ge fs f e he

/-- Filtering the empty event list yields the empty list, whatever the
stored state looks like. -/
lemma filter_ebird_events_nil (savedObs : Option StateBlob) :
    filter_ebird_events savedObs [] = [] := by
  cases savedObs with
  | none => rfl
  | some b => cases b <;> rfl

/-- A `latest_observation_datetime` write in `processBatch` only happens
when the filtered batch is non-empty. -/
lemma processBatch_obsWrites_ne (integrationId : String) (savedObs : Option StateBlob)
    (transformed : List Event) (outcome : SendOutcome)
    (h : (processBatch integrationId savedObs transformed outcome).2 ≠ []) :
    filter_ebird_events savedObs transformed ≠ [] := by
  intro hfil
  apply h
  cases transformed with
  | nil => rfl
  | cons t ts => simp [processBatch, hfil]

/-- The message built by the error path of `handle_transformed_data` is
never the literal string the caller tests for. -/
lemma sensorsErrorMsg_ne_error (integrationId excMsg : String) :
    ("error" : String) ≠ sensorsErrorMsg integrationId excMsg := by
  intro h
  have hl := congrArg String.length h
  simp only [sensorsErrorMsg, String.length_append] at hl
  have h1 : ("Sensors API returned error for integration_id: " : String).length = 47 := rfl
  have h2 : (". Exception: " : String).length = 13 := rfl
  have h3 : ("error" : String).length = 5 := rfl
  rw [h1, h2, h3] at hl
  omega

/-- When `send_events_to_gundi` raises `httpx.HTTPError`, the Python check
`"error" in response` performed by `action_pull_events` is False: the
response is the list `[msg]` and `in` is list membership, which compares
the whole message against the literal `"error"`. -/
lemma pyInError_httpError (integrationId excMsg : String) :
    pyInError (handle_transformed_data (SendOutcome.httpError excMsg) integrationId) = false := by
  show ([sensorsErrorMsg integrationId excMsg].contains "error") = false
  simp only [List.contains_cons, List.contains_nil, Bool.or_false]
  rw [beq_eq_false_iff_ne]
  exact sensorsErrorMsg_ne_error integrationId excMsg

/-- Unfolding of the per-species loop: the URLs are the species codes in
order, each prefixed by the base URL, and the observations are the per-code
results concatenated in the same order. -/
lemma getRecentObservationsSpecies_eq (base_url : String) (api : String → List Event) :
    ∀ cs : List String,
      getRecentObservationsSpecies base_url api cs
        = (cs.map (fun c => base_url ++ "/" ++ c),
           (cs.map (fun c => api (base_url ++ "/" ++ c))).flatten) := by
  intro cs
  induction cs with
  | nil => rfl
  | cons c cs ih =>
      simp only [getRecentObservationsSpecies, ih, List.map_cons, List.flatten_cons]

/-- C1 (counterexample): with a stored `latest_execution_time` 100 days in
the past, `action_pull_events` computes a lookback of 100 days, whereas the
claim's formula `min(configured_max_days, ceil((now - watermark)/86400))`
with the configured maximum of 30 yields 30 — the code never applies the
`min` cap. -/
theorem lookback_cap_counterexample :
    computeLookbackDays (100 * 86400) (some (StateBlob.valid 0)) 2 = 100 ∧
    min 30 (ceilDaysOfSeconds (100 * 86400 - 0)) = 30 ∧
    computeLookbackDays (100 * 86400) (some (StateBlob.valid 0)) 2 ≠
      min 30 (ceilDaysOfSeconds (100 * 86400 - 0)) := by
  refine ⟨by decide, by decide, by decide⟩

/-- C1 (amended): with a stored prior timestamp the lookback is
`max(1, ceil((now - stored)/86400))` — never below 1 day but with no upper
cap at the configured maximum; with no stored timestamp (or one that fails
to parse) the lookback equals the configured `num_days`. -/
theorem lookback_window_formula (now t num_days : Int) :
    computeLookbackDays now (some (StateBlob.valid t)) num_days
        = max 1 (ceilDaysOfSeconds (now - t)) ∧
    1 ≤ computeLookbackDays now (some (StateBlob.valid t)) num_days ∧
    computeLookbackDays now none num_days = num_days ∧
    computeLookbackDays now (some StateBlob.malformed) num_days = num_days := by
  exact ⟨rfl, le_max_left 1 _, rfl, rfl⟩

/-- C2 (code bug): when `send_events_to_gundi` raises `httpx.HTTPError`,
the check `"error" in response` in `action_pull_events` is always False
(the response is the one-message list built by `handle_transformed_data`,
and list membership compares the whole message against `"error"`), so the
run still advances the `latest_observation_datetime` watermark and still
returns a non-zero `events_extracted` — here a concrete failed run writes
watermark 100 and returns 1. -/
theorem submission_failure_still_advances_watermark :
    (∀ integrationId excMsg : String,
      pyInError (handle_transformed_data (SendOutcome.httpError excMsg) integrationId)
        = false) ∧
    action_pull_events "intg" cfgPoint none none 0 7 (fun _ => [ev100])
        (SendOutcome.httpError "boom")
      = { result := Sum.inr 1, lookbackUsed := 2, obsWrites := [100], execWrites := [7] } := by
  exact ⟨pyInError_httpError, rfl⟩

/-- C3: with a stored watermark `w`, `filter_ebird_events` returns exactly
the events with `recorded_at > w`, as an order-preserving sublist of the
input; with no stored watermark state it returns the input unchanged. -/
theorem filter_keeps_strictly_newer (w : Int) (events : List Event) :
    filter_ebird_events (some (StateBlob.valid w)) events
        = events.filter (fun e => decide (w < e.recorded_at)) ∧
    (filter_ebird_events (some (StateBlob.valid w)) events).Sublist events ∧
    (∀ e : Event, e ∈ filter_ebird_events (some (StateBlob.valid w)) events
        ↔ (e ∈ events ∧ w < e.recorded_at)) ∧
    filter_ebird_events none events = events := by
  refine ⟨rfl, List.filter_sublist events, ?_, rfl⟩
  intro e
  simp [filter_ebird_events, List.mem_filter]

/-- C4: when the configuration check passes and the filtered batch `f :: fs`
is non-empty and forwarding succeeds (the sink response carries no error),
the run writes exactly one new `latest_observation_datetime` equal to
`pyMaxRecordedAt f fs` — which is the maximum `recorded_at` of the batch —
and returns `events_extracted` equal to the batch length. -/
theorem success_advances_watermark_to_max (integrationId : String)
    (cfg : PullEventsConfig) (savedExec savedObs : Option StateBlob)
    (now0 now1 : Int) (fetch : Int → List Event) (f : Event) (fs : List Event)
    (hcfg : validateQuerySpec cfg = none)
    (hfil : filter_ebird_events savedObs
        (fetch (computeLookbackDays now0 savedExec cfg.num_days)) = f :: fs) :
    action_pull_events integrationId cfg savedExec savedObs now0 now1 fetch
        (SendOutcome.ok false)
      = { result := Sum.inr (f :: fs).length,
          lookbackUsed := computeLookbackDays now0 savedExec cfg.num_days,
          obsWrites := [pyMaxRecordedAt f fs], execWrites := [now1] } ∧
    pyMaxRecordedAt f fs ∈ (f :: fs).map Event.recorded_at ∧
    (∀ e : Event, e ∈ f :: fs → e.recorded_at ≤ pyMaxRecordedAt f fs) := by
  refine ⟨?_, pyMaxRecordedAt_mem f fs, pyMaxRecordedAt_ge f fs⟩
  obtain ⟨t, ts, hft⟩ :
      ∃ t ts, fetch (computeLookbackDays now0 savedExec cfg.num_days) = t :: ts := by
    cases h : fetch (computeLookbackDays now0 savedExec cfg.num_days) with
    | nil =>
        rw [h, filter_ebird_events_nil] at hfil
        exact absurd hfil.symm (List.cons_ne_nil f fs)
    | cons a l => exact ⟨a, l, rfl⟩
  rw [hft] at hfil
  simp [action_pull_events, hcfg, processBatch, hft, hfil, pyInError,
    handle_transformed_data]

/-- C4 (witness): a concrete successful region-mode run with one fetched
event at time 100 forwards it, writes watermark 100 and returns 1. -/
theorem success_advances_watermark_to_max_witness :
    action_pull_events "intg" cfgRegion none none 0 7 (fun _ => [ev100])
        (SendOutcome.ok false)
      = { result := Sum.inr 1, lookbackUsed := 2, obsWrites := [100], execWrites := [7] } :=
  (success_advances_watermark_to_max "intg" cfgRegion none none 0 7
    (fun _ => [ev100]) ev100 [] rfl rfl).1

/-- C5: a stored state blob that fails to parse is treated exactly as an
absent one — the whole run behaves identically (same result, same lookback,
same state writes), the lookback falls back to the configured `num_days`,
and the filter keeps all events. -/
theorem malformed_state_treated_as_absent (integrationId : String)
    (cfg : PullEventsConfig) (now0 now1 now : Int) (fetch : Int → List Event)
    (outcome : SendOutcome) (events : List Event) :
    action_pull_events integrationId cfg (some StateBlob.malformed)
        (some StateBlob.malformed) now0 now1 fetch outcome
      = action_pull_events integrationId cfg none none now0 now1 fetch outcome ∧
    computeLookbackDays now (some StateBlob.malformed) cfg.num_days = cfg.num_days ∧
    filter_ebird_events (some StateBlob.malformed) events = events := by
  refine ⟨?_, rfl, rfl⟩
  rfl

/-- C6: with a truthy species filter, `_get_recent_observations` issues one
query unit per comma-separated code (URLs in code order) and concatenates
the per-code results in that order; with no species filter it issues exactly
one query unit against the base URL. -/
theorem species_multiplexing (base_url s : String) (api : String → List Event)
    (h : s ≠ "") :
    (getRecentObservations base_url api (some s)).1
        = (pySplitComma s).map (fun c => base_url ++ "/" ++ c) ∧
    (getRecentObservations base_url api (some s)).2
        = ((pySplitComma s).map (fun c => api (base_url ++ "/" ++ c))).flatten ∧
    ((getRecentObservations base_url api (some s)).1).length
        = (pySplitComma s).length ∧
    getRecentObservations base_url api none = ([base_url], api base_url) := by
  have ht : pyTruthyOptStr (some s) = true := by
    simp [pyTruthyOptStr, h]
  refine ⟨?_, ?_, ?_, rfl⟩ <;>
    simp [getRecentObservations, ht, getRecentObservationsSpecies_eq]

/-- C6 (witness): the species filter `"amewoo,mallar3"` issues exactly the
two query units `B/amewoo` and `B/mallar3`, in that order, and concatenates
their results in that order. -/
theorem species_multiplexing_witness :
    ("amewoo,mallar3" : String) ≠ "" ∧
    (getRecentObservations "B" (fun u => [{ recorded_at := 1, payload := u }])
        (some "amewoo,mallar3")).1 = ["B/amewoo", "B/mallar3"] ∧
    (getRecentObservations "B" (fun u => [{ recorded_at := 1, payload := u }])
        (some "amewoo,mallar3")).2
      = [{ recorded_at := 1, payload := "B/amewoo" },
         { recorded_at := 1, payload := "B/mallar3" }] := by
  have h := species_multiplexing "B" "amewoo,mallar3"
    (fun u => [{ recorded_at := 1, payload := u }]) (by decide)
  exact ⟨by decide, by rw [h.1]; rfl, by rw [h.2.1]; rfl⟩

/-- C7: a region-mode run with no region code, and a point-mode run with a
missing latitude, longitude or distance, raise `ConfigurationValidationError`
before any fetch and perform no state write at all. -/
theorem missing_config_fails_without_writes (integrationId : String)
    (cfg : PullEventsConfig) (savedExec savedObs : Option StateBlob)
    (now0 now1 : Int) (fetch : Int → List Event) (outcome : SendOutcome) :
    (cfg.search_parameter = SearchParameter.REGION → cfg.region_code = none →
      action_pull_events integrationId cfg savedExec savedObs now0 now1 fetch outcome
        = { result := Sum.inl (RunError.configurationValidationError
              "Region code is required for region search parameter."),
            lookbackUsed := computeLookbackDays now0 savedExec cfg.num_days,
            obsWrites := [], execWrites := [] }) ∧
    (cfg.search_parameter = SearchParameter.LAT_LON_DISTANCE →
      (cfg.latitude = none ∨ cfg.longitude = none ∨ cfg.distance = none) →
      action_pull_events integrationId cfg savedExec savedObs now0 now1 fetch outcome
        = { result := Sum.inl (RunError.configurationValidationError
              "Latitude, longitude, and distance are required for location search parameter."),
            lookbackUsed := computeLookbackDays now0 savedExec cfg.num_days,
            obsWrites := [], execWrites := [] }) := by
  constructor
  · intro hmode hrc
    simp [action_pull_events, validateQuerySpec, hmode, hrc, pyTruthyOptStr]
  · intro hmode hmiss
    rcases hmiss with hm | hm | hm <;>
      simp [action_pull_events, validateQuerySpec, hmode, hm, pyTruthyOptRat]

/-- C7 (witness): a concrete region-mode run with no region code stored and
no state raises the configuration error and writes nothing. -/
theorem missing_config_fails_without_writes_witness :
    action_pull_events "intg" cfgRegionMissing none none 0 7 (fun _ => [ev100])
        (SendOutcome.ok false)
      = { result := Sum.inl (RunError.configurationValidationError
            "Region code is required for region search parameter."),
          lookbackUsed := 2, obsWrites := [], execWrites := [] } :=
  (missing_config_fails_without_writes "intg" cfgRegionMissing none none 0 7
    (fun _ => [ev100]) (SendOutcome.ok false)).1 rfl rfl

/-- C8: the three timestamp validators always yield a timezone-aware value:
an already-aware timestamp is returned unchanged (its offset is preserved),
and a naive one gets the UTC offset attached. -/
theorem normalized_timestamps_tz_aware (d : PyDatetime) :
    clean_obsDt d = { naive := d.naive, tzinfo := some (d.tzinfo.getD 0) } ∧
    clean_latest_observation_datetime d
        = { naive := d.naive, tzinfo := some (d.tzinfo.getD 0) } ∧
    clean_latest_execution_time d
        = { naive := d.naive, tzinfo := some (d.tzinfo.getD 0) } ∧
    (clean_obsDt d).tzinfo.isSome = true := by
  cases d with
  | mk naive tz =>
      cases tz with
      | none => exact ⟨rfl, rfl, rfl, rfl⟩
      | some z =>
          refine ⟨?_, ?_, ?_, rfl⟩ <;>
            simp [clean_obsDt, clean_latest_observation_datetime,
              clean_latest_execution_time]

/-- C9: every run that reaches its end (returns instead of raising) writes
`latest_execution_time` exactly once, with the run-end time; the lookback it
used is a function of the stored `latest_execution_time` alone — changing
the `latest_observation_datetime` watermark does not change it — and a
`latest_observation_datetime` write happens only when the filtered batch
passed to submission was non-empty. -/
theorem run_end_writes_execution_time (integrationId : String)
    (cfg : PullEventsConfig) (savedExec savedObs savedObs2 : Option StateBlob)
    (now0 now1 : Int) (fetch : Int → List Event) (outcome : SendOutcome) (n : Nat)
    (hend : (action_pull_events integrationId cfg savedExec savedObs
        now0 now1 fetch outcome).result = Sum.inr n) :
    (action_pull_events integrationId cfg savedExec savedObs
        now0 now1 fetch outcome).execWrites = [now1] ∧
    (action_pull_events integrationId cfg savedExec savedObs
        now0 now1 fetch outcome).lookbackUsed
      = computeLookbackDays now0 savedExec cfg.num_days ∧
    (action_pull_events integrationId cfg savedExec savedObs2
        now0 now1 fetch outcome).lookbackUsed
      = (action_pull_events integrationId cfg savedExec savedObs
          now0 now1 fetch outcome).lookbackUsed ∧
    ((action_pull_events integrationId cfg savedExec savedObs
        now0 now1 fetch outcome).obsWrites ≠ [] →
      filter_ebird_events savedObs
        (fetch (computeLookbackDays now0 savedExec cfg.num_days)) ≠ []) := by
  cases hv : validateQuerySpec cfg with
  | some e =>
      exfalso
      simp [action_pull_events, hv] at hend
  | none =>
      refine ⟨?_, ?_, ?_, ?_⟩
      · simp [action_pull_events, hv]
      · simp [action_pull_events, hv]
      · simp [action_pull_events, hv]
      · intro hw
        apply processBatch_obsWrites_ne integrationId savedObs
          (fetch (computeLookbackDays now0 savedExec cfg.num_days)) outcome
        intro h2
        apply hw
        simp [action_pull_events, hv, h2]

/-- C9 (witness): a concrete run that reaches its end writes its end time 7
as the single `latest_execution_time`. -/
theorem run_end_writes_execution_time_witness :
    (action_pull_events "intg" cfgPoint none none 0 7 (fun _ => [ev100])
        (SendOutcome.ok false)).execWrites = [7] :=
  (run_end_writes_execution_time "intg" cfgPoint none none none 0 7
    (fun _ => [ev100]) (SendOutcome.ok false) 1 rfl).1

/-- C10: in point search mode a latitude configured as the valid coordinate
`0.0` (or a longitude configured as `0.0`) is falsy under the Python
truthiness check, so the run raises `ConfigurationValidationError` even
though the field is populated. -/
theorem zero_coordinate_rejected (integrationId : String)
    (cfg : PullEventsConfig) (savedExec savedObs : Option StateBlob)
    (now0 now1 : Int) (fetch : Int → List Event) (outcome : SendOutcome)
    (hmode : cfg.search_parameter = SearchParameter.LAT_LON_DISTANCE)
    (hzero : cfg.latitude = some 0 ∨ cfg.longitude = some 0) :
    action_pull_events integrationId cfg savedExec savedObs now0 now1 fetch outcome
      = { result := Sum.inl (RunError.configurationValidationError
            "Latitude, longitude, and distance are required for location search parameter."),
          lookbackUsed := computeLookbackDays now0 savedExec cfg.num_days,
          obsWrites := [], execWrites := [] } := by
  rcases hzero with h | h <;>
    simp [action_pull_events, validateQuerySpec, hmode, h, pyTruthyOptRat]

/-- C10 (witness): a concrete point-mode run whose latitude is the valid
coordinate 0 (with longitude 20 and distance 5 populated) raises the
configuration error. -/
theorem zero_coordinate_rejected_witness :
    action_pull_events "intg" cfgZeroLat none none 0 7 (fun _ => [ev100])
        (SendOutcome.ok false)
      = { result := Sum.inl (RunError.configurationValidationError
            "Latitude, longitude, and distance are required for location search parameter."),
          lookbackUsed := 2, obsWrites := [], execWrites := [] } :=
  zero_coordinate_rejected "intg" cfgZeroLat none none 0 7 (fun _ => [ev100])
    (SendOutcome.ok false) rfl (Or.inl rfl)

end EBird
